import Mathlib

/-!
Verification of the sheet-to-Firestore synchronization script
(`run_nfl_update.py`).

The script reads a worksheet into a pandas DataFrame (`fetch_sheet_data`,
dropping all-empty rows with `dropna(how='all')`) and writes each row to a
Firestore collection (`update_firebase`): it no-ops on a `None` or empty
frame, errors when the configured key column is absent from the frame's
columns, and otherwise replaces missing values with `""` (`fillna`), turns
the frame into one record per row (`to_dict('records')`), and stages a
full-overwrite `set` per record keyed by `str(record[KEY_COLUMN])`, finally
committing the whole batch.

The embedding below models a DataFrame as a column list plus a list of rows
(each row a list of cells aligned with the columns), a cell as missing
(pandas `NaN`), a string, or an integer, and the Firestore collection as an
association list from document id to document body.
-/

/-- A pandas cell value: missing (`NaN`), a string, or a number.
`get_as_dataframe` yields `NaN` for empty sheet cells; numeric cells are
modelled as integers (float formatting plays no role in any claim). -/
inductive Cell where
  | na
  | str (s : String)
  | num (n : Int)
deriving DecidableEq, Repr

/-- `pandas.isna` on one cell. -/
def Cell.isNa : Cell → Bool
  | Cell.na => true
  | _ => false

/-- Python `str(...)` on a cell value (`str(float('nan')) = "nan"`;
after `fillna` the `na` case is unreachable in the write path). -/
def Cell.pyStr : Cell → String
  | Cell.na => "nan"
  | Cell.str s => s
  | Cell.num n => toString n

/-- One cell of `fillna(value="")`: `NaN` becomes the empty string. -/
def fillCell : Cell → Cell
  | Cell.na => Cell.str ""
  | c => c

/-- A pandas DataFrame: header names plus rows of cells, each row aligned
positionally with the columns. -/
structure DataFrame where
  columns : List String
  rows : List (List Cell)
deriving DecidableEq, Repr

/-- `DataFrame.empty`: true when either axis has length 0. -/
def DataFrame.isEmpty (df : DataFrame) : Bool :=
  df.rows.isEmpty || df.columns.isEmpty

/-- Shape discipline pandas enforces by construction: header names are
distinct and every row has one cell per column. -/
def DataFrame.Wellformed (df : DataFrame) : Prop :=
  df.columns.Nodup ∧ ∀ r ∈ df.rows, r.length = df.columns.length

instance (df : DataFrame) : Decidable df.Wellformed := by
  unfold DataFrame.Wellformed; infer_instance

/-- One row materialized as a column-name-to-value mapping
(an entry of `to_dict('records')`). -/
abbrev Record : Type := List (String × Cell)

/-- Python dict lookup `record[k]` (None models a `KeyError`). -/
def lookupField : Record → String → Option Cell
  | [], _ => none
  | (k, v) :: rest, key => if k = key then some v else lookupField rest key

/-- `data_df.fillna(value="")` (line 96): replace `NaN` with `""`,
returning a new frame. -/
def fillna (df : DataFrame) : DataFrame :=
  { df with rows := df.rows.map (fun r => r.map fillCell) }

/-- `data_df_cleaned.to_dict('records')` (line 99): one dict per row,
keyed by the column names. -/
def toRecords (df : DataFrame) : List Record :=
  df.rows.map (fun r => df.columns.zip r)

/-- Settings block of the script. -/
def KEY_COLUMN : String := "pick_id"

def FIRESTORE_COLLECTION : String := "live_picks"

def GOOGLE_SHEET_NAME : String := "My_NFL_Betting_Data1"

def WORKSHEET_NAME : String := "live_picks_sheets"

/-- Outcome of `update_firebase`: silent skip on no data (lines 79-81),
printed configuration error (lines 83-86), the caught-exception path of
lines 118-119 (e.g. a `KeyError` while staging, before `batch.commit()`),
or a successful commit of the staged batch (lines 103-115). -/
inductive WriteResult where
  | noData
  | configError (missing : String) (available : List String)
  | storeError
  | committed (batch : List (String × Record))
deriving DecidableEq, Repr

/-- The staging loop of lines 103-112: for each record compute
`doc_id = str(record[KEY_COLUMN])` and stage a `set` of the full record;
a failed lookup models the `KeyError` aborting the loop (no commit). -/
def stageBatch : List Record → Option (List (String × Record))
  | [] => some []
  | rec :: rest =>
    match lookupField rec KEY_COLUMN with
    | none => none
    | some v =>
      match stageBatch rest with
      | none => none
      | some b => some ((v.pyStr, rec) :: b)

/-- `update_firebase(data_df)` (lines 77-119). The first component is the
outcome; the second is the caller-visible frame after the call (the source
never reassigns or mutates `data_df`: `fillna` is not in-place). -/
def update_firebase (data_df : Option DataFrame) : WriteResult × Option DataFrame :=
  match data_df with
  | none => (WriteResult.noData, none)
  | some df =>
    if df.isEmpty then (WriteResult.noData, some df)
    else if KEY_COLUMN ∈ df.columns then
      match stageBatch (toRecords (fillna df)) with
      | none => (WriteResult.storeError, some df)
      | some b => (WriteResult.committed b, some df)
    else (WriteResult.configError KEY_COLUMN df.columns, some df)

/-- `data_df.dropna(how='all', inplace=True)` (line 69): drop every row
whose cells are all `NaN`. -/
def dropAllEmpty (df : DataFrame) : DataFrame :=
  { df with rows := df.rows.filter (fun r => !(r.all Cell.isNa)) }

/-- `fetch_sheet_data` (lines 56-75) after the worksheet has been read into
a raw frame: `none` models a read failure, otherwise all-empty rows are
dropped before the frame is returned. -/
def fetch_sheet_data (raw : Option DataFrame) : Option DataFrame :=
  raw.map dropAllEmpty

/-- The Firestore collection, as document id to document body. -/
abbrev Store : Type := List (String × Record)

/-- One committed `set` operation: full overwrite if the id exists,
creation otherwise. -/
def setDoc : Store → String → Record → Store
  | [], id, rec => [(id, rec)]
  | (i, r) :: rest, id, rec =>
    if i = id then (id, rec) :: rest else (i, r) :: setDoc rest id rec

/-- Read one document of the collection. -/
def getDoc : Store → String → Option Record
  | [], _ => none
  | (i, r) :: rest, id => if i = id then some r else getDoc rest id

/-- `batch.commit()` (line 115): apply every staged `set` in order. -/
def applyBatch : List (String × Record) → Store → Store
  | [], s => s
  | (id, rec) :: rest, s => applyBatch rest (setDoc s id rec)

/-- The effect of one `update_firebase` run on the collection: only a
committed batch changes it. -/
def runWriter (data_df : Option DataFrame) (store : Store) : Store :=
  match (update_firebase data_df).1 with
  | WriteResult.committed b => applyBatch b store
  | _ => store

/-- The value the last staged `set` for an id carries, if any. -/
def lastWrite : List (String × Record) → String → Option Record
  | [], _ => none
  | (i, v) :: rest, id =>
    match lastWrite rest id with
    | some w => some w
    | none => if i = id then some v else none

/-- The row record after normalization: `fillna` then `to_dict('records')`. -/
def normRecord (df : DataFrame) (r : List Cell) : Record :=
  df.columns.zip (r.map fillCell)

/-- The document id the writer derives from a row: the string form of the
normalized key-column value (the default is unreachable when the key column
is present and the row is full-width). -/
def docIdOf (df : DataFrame) (r : List Cell) : String :=
  ((lookupField (normRecord df r) KEY_COLUMN).getD Cell.na).pyStr

/-- The batch the writer stages for a frame on the successful path. -/
def stagedBatch (df : DataFrame) : List (String × Record) :=
  df.rows.map (fun r => (docIdOf df r, normRecord df r))

/-- The last row of the frame whose derived document id is `id`, if any. -/
def lastRowAux (df : DataFrame) (id : String) : List (List Cell) → Option (List Cell)
  | [] => none
  | r :: rest =>
    match lastRowAux df id rest with
    | some x => some x
    | none => if docIdOf df r = id then some r else none

/-- The last row of `df` whose derived document id is `id`, if any. -/
def lastRowWith (df : DataFrame) (id : String) : Option (List Cell) :=
  lastRowAux df id df.rows

/-! ## Store lemmas -/

theorem getDoc_setDoc (s : Store) (i : String) (v : Record) (j : String) :
    getDoc (setDoc s i v) j = if i = j then some v else getDoc s j := by
  induction s with
  | nil => simp [setDoc, getDoc]
  | cons p rest ih =>
    obtain ⟨a, b⟩ := p
    by_cases hai : a = i
    · subst hai
      by_cases haj : a = j
      · subst haj
        simp [setDoc, getDoc]
      · simp [setDoc, getDoc, haj]
    · by_cases haj : a = j
      · subst haj
        have hij : ¬i = a := fun hc => hai hc.symm
        simp [setDoc, getDoc, hai, hij]
      · simp [setDoc, getDoc, hai, haj, ih]

theorem getDoc_applyBatch (b : List (String × Record)) (s : Store) (id : String) :
    getDoc (applyBatch b s) id =
      match lastWrite b id with
      | some v => some v
      | none => getDoc s id := by
  induction b generalizing s with
  | nil => simp [applyBatch, lastWrite]
  | cons p rest ih =>
    obtain ⟨i, v⟩ := p
    simp only [applyBatch, lastWrite, ih, getDoc_setDoc]
    cases lastWrite rest id with
    | some w => rfl
    | none =>
      by_cases hii : i = id <;> simp [hii]

theorem setDoc_notMem (s : Store) (i : String) (v : Record)
    (h : i ∉ s.map Prod.fst) :
    setDoc s i v = s ++ [(i, v)] := by
  induction s with
  | nil => rfl
  | cons p rest ih =>
    obtain ⟨a, b⟩ := p
    simp only [List.map_cons, List.mem_cons] at h
    push_neg at h
    have hne : ¬a = i := fun hc => h.1 hc.symm
    simp [setDoc, hne, ih h.2]

theorem applyBatch_fresh (b : List (String × Record)) (s : Store)
    (hnd : (b.map Prod.fst).Nodup)
    (hdisj : ∀ p ∈ b, p.1 ∉ s.map Prod.fst) :
    applyBatch b s = s ++ b := by
  induction b generalizing s with
  | nil => simp [applyBatch]
  | cons p rest ih =>
    obtain ⟨i, v⟩ := p
    simp only [List.map_cons, List.nodup_cons] at hnd
    have hstep : setDoc s i v = s ++ [(i, v)] :=
      setDoc_notMem s i v (hdisj (i, v) (List.mem_cons_self _ _))
    have hdisj2 : ∀ q ∈ rest, q.1 ∉ (s ++ [(i, v)]).map Prod.fst := by
      intro q hq
      simp only [List.map_append, List.mem_append, List.map_cons, List.map_nil,
        List.mem_singleton]
      push_neg
      constructor
      · exact hdisj q (List.mem_cons_of_mem _ hq)
      · intro hc
        exact hnd.1 (hc ▸ List.mem_map_of_mem Prod.fst hq)
    rw [applyBatch, hstep, ih (s ++ [(i, v)]) hnd.2 hdisj2]
    simp

/-! ## Staging lemmas -/

theorem lookupField_zip_isSome (cols : List String) (row : List Cell) (k : String)
    (hk : k ∈ cols) (hlen : row.length = cols.length) :
    (lookupField (cols.zip row) k).isSome := by
  induction cols generalizing row with
  | nil => cases hk
  | cons c cs ih =>
    cases row with
    | nil => simp at hlen
    | cons v vs =>
      simp only [List.length_cons, Nat.succ.injEq] at hlen
      by_cases hck : c = k
      · simp [List.zip_cons_cons, lookupField, hck]
      · rcases List.mem_cons.mp hk with h | h
        · exact absurd h.symm hck
        · simpa [List.zip_cons_cons, lookupField, hck] using ih vs h hlen

theorem stageBatch_eq (recs : List Record)
    (h : ∀ rec ∈ recs, (lookupField rec KEY_COLUMN).isSome) :
    stageBatch recs =
      some (recs.map (fun rec =>
        (((lookupField rec KEY_COLUMN).getD Cell.na).pyStr, rec))) := by
  induction recs with
  | nil => rfl
  | cons rec rest ih =>
    have hrec := h rec (List.mem_cons_self _ _)
    obtain ⟨v, hv⟩ := Option.isSome_iff_exists.mp hrec
    rw [stageBatch, hv, ih (fun q hq => h q (List.mem_cons_of_mem _ hq))]
    simp [hv]

theorem toRecords_fillna (df : DataFrame) :
    toRecords (fillna df) = df.rows.map (normRecord df) := by
  simp [toRecords, fillna, normRecord, List.map_map, Function.comp]

theorem normRecord_key_isSome (df : DataFrame) (r : List Cell)
    (hwf : df.Wellformed) (hk : KEY_COLUMN ∈ df.columns) (hr : r ∈ df.rows) :
    (lookupField (normRecord df r) KEY_COLUMN).isSome := by
  refine lookupField_zip_isSome df.columns (r.map fillCell) KEY_COLUMN hk ?_
  simp [hwf.2 r hr]

/-- Successful path of `update_firebase`: a non-empty well-formed frame
whose columns include the key column commits exactly the staged batch. -/
theorem update_firebase_committed (df : DataFrame)
    (hwf : df.Wellformed) (hne : df.isEmpty = false)
    (hk : KEY_COLUMN ∈ df.columns) :
    (update_firebase (some df)).1 = WriteResult.committed (stagedBatch df) := by
  rw [update_firebase]
  rw [if_neg (by simp [hne]), if_pos hk, toRecords_fillna]
  rw [stageBatch_eq _ (fun rec hrec => ?_)]
  · simp only [List.map_map]
    rfl
  · obtain ⟨r, hr, rfl⟩ := List.mem_map.mp hrec
    exact normRecord_key_isSome df r hwf hk hr

theorem lastWrite_stagedBatch (df : DataFrame) (id : String) :
    lastWrite (stagedBatch df) id =
      (lastRowAux df id df.rows).map (normRecord df) := by
  rw [stagedBatch]
  induction df.rows with
  | nil => rfl
  | cons r rest ih =>
    rw [List.map_cons, lastWrite, lastRowAux, ih]
    cases lastRowAux df id rest with
    | some x => rfl
    | none =>
      by_cases h : docIdOf df r = id <;> simp [h]

/-! ## Concrete frames used by counterexamples and witnesses -/

/-- The worked example of the spec: rows `{pick_id:"1",team:"A"}`,
`{pick_id:"2",team:""}`, `{}` (all empty) and `{pick_id:"3"}` (team cell
empty, hence `NaN` as read from the sheet). -/
def exampleSheet : DataFrame :=
  ⟨["pick_id", "team"],
   [[Cell.str "1", Cell.str "A"],
    [Cell.str "2", Cell.str ""],
    [Cell.na, Cell.na],
    [Cell.str "3", Cell.na]]⟩

/-- A frame whose single row has a missing (`NaN`) key-column value. -/
def missingKeyRow : DataFrame :=
  ⟨["pick_id", "team"], [[Cell.na, Cell.str "A"]]⟩

/-- A small frame with distinct key values and one missing cell. -/
def sampleDf : DataFrame :=
  ⟨["pick_id", "team"], [[Cell.str "1", Cell.str "A"], [Cell.str "2", Cell.na]]⟩

/-- A frame with a duplicated key value. -/
def dupDf : DataFrame :=
  ⟨["pick_id", "team"], [[Cell.str "1", Cell.str "A"], [Cell.str "1", Cell.str "B"]]⟩

/-- A frame that lacks the configured key column. -/
def noKeyDf : DataFrame :=
  ⟨["game_id", "team"], [[Cell.str "9", Cell.str "A"]]⟩

/-! ## Claims -/

/-- C1: for every non-empty well-formed frame whose columns include the key
column and whose derived document ids are pairwise distinct (the key-column
values are unique), the writer commits exactly one staged document per row,
keyed by the string form of the row's key-column value, with the row record
after `fillna` as the body; committing that batch into an empty collection
yields exactly those documents. -/
theorem store_writer_reproduces_rows (df : DataFrame)
    (hwf : df.Wellformed) (hne : df.isEmpty = false)
    (hk : KEY_COLUMN ∈ df.columns)
    (huniq : (df.rows.map (docIdOf df)).Nodup) :
    (update_firebase (some df)).1 = WriteResult.committed (stagedBatch df)
    ∧ (stagedBatch df).length = df.rows.length
    ∧ applyBatch (stagedBatch df) [] = stagedBatch df := by
  refine ⟨update_firebase_committed df hwf hne hk, by simp [stagedBatch], ?_⟩
  have hids : (stagedBatch df).map Prod.fst = df.rows.map (docIdOf df) := by
    simp [stagedBatch, List.map_map]
  have happ := applyBatch_fresh (stagedBatch df) []
    (by rw [hids]; exact huniq) (by intro p hp; simp)
  simpa using happ

/-- C1 witness: the theorem applied to a concrete two-row frame. -/
theorem store_writer_reproduces_rows_witness :
    sampleDf.Wellformed
    ∧ ((update_firebase (some sampleDf)).1 = WriteResult.committed (stagedBatch sampleDf)
      ∧ (stagedBatch sampleDf).length = sampleDf.rows.length
      ∧ applyBatch (stagedBatch sampleDf) [] = stagedBatch sampleDf) :=
  ⟨by decide,
   store_writer_reproduces_rows sampleDf (by decide) (by decide) (by decide) (by decide)⟩

/-- C2 counterexample: on the spec's worked example the third written
document is not `{pick_id:"3"}`: `fillna` plus `to_dict('records')` keeps
every column, so the staged batch differs from the one the claim asserts
(whose third body lacks the `team` field). -/
theorem example_pipeline_counterexample :
    (update_firebase (fetch_sheet_data (some exampleSheet))).1
      ≠ WriteResult.committed
          [("1", [("pick_id", Cell.str "1"), ("team", Cell.str "A")]),
           ("2", [("pick_id", Cell.str "2"), ("team", Cell.str "")]),
           ("3", [("pick_id", Cell.str "3")])] := by decide

/-- C2 (amended): on the spec's worked example exactly three documents are
written — `"1" → {pick_id:"1", team:"A"}`, `"2" → {pick_id:"2", team:""}`
and `"3" → {pick_id:"3", team:""}`: the missing team cell is normalized to
the empty string, so the field is present and empty. -/
theorem example_pipeline_documents :
    (update_firebase (fetch_sheet_data (some exampleSheet))).1
      = WriteResult.committed
          [("1", [("pick_id", Cell.str "1"), ("team", Cell.str "A")]),
           ("2", [("pick_id", Cell.str "2"), ("team", Cell.str "")]),
           ("3", [("pick_id", Cell.str "3"), ("team", Cell.str "")])] := by decide

/-- C3: a non-empty frame without the key column among its columns yields a
configuration failure naming the missing column and listing the columns that
were found, and the collection is left untouched. -/
theorem missing_key_column_config_error (df : DataFrame)
    (hne : df.isEmpty = false) (hk : KEY_COLUMN ∉ df.columns) :
    (update_firebase (some df)).1 = WriteResult.configError KEY_COLUMN df.columns
    ∧ ∀ s, runWriter (some df) s = s := by
  have hres : (update_firebase (some df)).1
      = WriteResult.configError KEY_COLUMN df.columns := by
    simp [update_firebase, hne, hk]
  exact ⟨hres, fun s => by simp [runWriter, hres]⟩

/-- C3 witness: the theorem applied to a frame with only a `game_id` column. -/
theorem missing_key_column_config_error_witness :
    (update_firebase (some noKeyDf)).1
      = WriteResult.configError KEY_COLUMN noKeyDf.columns
    ∧ runWriter (some noKeyDf) [] = [] := by
  have h := missing_key_column_config_error noKeyDf (by decide) (by decide)
  exact ⟨h.1, h.2 []⟩

/-- C4 counterexample: a frame whose single row has a missing key-column
value is not rejected and the operation does not abort: the writer commits
a batch and a document keyed `""` is written to the collection. -/
theorem missing_key_value_written_counterexample :
    (update_firebase (some missingKeyRow)).1
      = WriteResult.committed
          [("", [("pick_id", Cell.str ""), ("team", Cell.str "A")])]
    ∧ getDoc (runWriter (some missingKeyRow) []) ""
        = some [("pick_id", Cell.str ""), ("team", Cell.str "A")] := by decide

/-- C4 (amended): a row with a missing key-column value is not rejected and
the operation does not abort: on a non-empty well-formed frame whose columns
include the key column, every row — missing key value or not — is staged
(its key value normalized to `""`, making its document id `""`) and the
whole batch is committed; rejection with zero writes happens only when the
key column is absent from the frame's columns altogether. -/
theorem missing_key_value_rows_staged (df : DataFrame)
    (hwf : df.Wellformed) (hne : df.isEmpty = false)
    (hk : KEY_COLUMN ∈ df.columns) :
    (update_firebase (some df)).1 = WriteResult.committed (stagedBatch df)
    ∧ (stagedBatch df).length = df.rows.length :=
  ⟨update_firebase_committed df hwf hne hk, by simp [stagedBatch]⟩

/-- C4 witness: the amended theorem applied to the frame whose single row
has a missing key value. -/
theorem missing_key_value_rows_staged_witness :
    (update_firebase (some missingKeyRow)).1
      = WriteResult.committed (stagedBatch missingKeyRow)
    ∧ (stagedBatch missingKeyRow).length = missingKeyRow.rows.length :=
  missing_key_value_rows_staged missingKeyRow (by decide) (by decide) (by decide)

/-- C5: one run of the store writer is idempotent on the collection — the
collection after running the writer twice on the same unchanged frame reads
identically to the collection after running it once, for every document id
(full overwrite, no accumulation). -/
theorem store_writer_idempotent (d : Option DataFrame) (store : Store) (id : String) :
    getDoc (runWriter d (runWriter d store)) id = getDoc (runWriter d store) id := by
  cases h : (update_firebase d).1 with
  | noData => simp [runWriter, h]
  | configError m a => simp [runWriter, h]
  | storeError => simp [runWriter, h]
  | committed b =>
    simp only [runWriter, h]
    rw [getDoc_applyBatch b (applyBatch b store) id, getDoc_applyBatch b store id]
    cases hlw : lastWrite b id <;> simp [hlw]

/-- C6: an absent (`None`) or empty frame makes the writer a successful
no-op: the result is the silent no-data outcome and the collection is left
untouched. -/
theorem empty_table_noop (d : Option DataFrame)
    (h : d = none ∨ ∃ df, d = some df ∧ df.isEmpty = true) :
    (update_firebase d).1 = WriteResult.noData ∧ ∀ s, runWriter d s = s := by
  have hres : (update_firebase d).1 = WriteResult.noData := by
    rcases h with rfl | ⟨df, rfl, he⟩
    · rfl
    · simp [update_firebase, he]
  exact ⟨hres, fun s => by simp [runWriter, hres]⟩

/-- C6 witness: the theorem applied to a frame with columns but no rows. -/
theorem empty_table_noop_witness :
    (update_firebase (some ⟨["pick_id"], []⟩)).1 = WriteResult.noData
    ∧ runWriter (some ⟨["pick_id"], []⟩) [] = [] := by
  have h := empty_table_noop (some ⟨["pick_id"], []⟩)
    (Or.inr ⟨⟨["pick_id"], []⟩, rfl, by decide⟩)
  exact ⟨h.1, h.2 []⟩

/-- C7: the sheet reader's `dropna(how='all')` excludes every all-empty row
from the returned frame (so none reaches the store writer) and retains
every row with at least one non-empty cell. -/
theorem dropna_filters_all_empty_rows (df : DataFrame) (r : List Cell) :
    (r.all Cell.isNa = true → r ∉ (dropAllEmpty df).rows)
    ∧ (r ∈ df.rows → r.all Cell.isNa = false → r ∈ (dropAllEmpty df).rows) := by
  constructor
  · intro hall hmem
    rw [dropAllEmpty] at hmem
    simp only [List.mem_filter] at hmem
    rw [hall] at hmem
    simp at hmem
  · intro hmem hnall
    rw [dropAllEmpty]
    simp only [List.mem_filter]
    exact ⟨hmem, by simp [hnall]⟩

/-- C7 witness: the theorem applied to the worked example's frame — its
all-empty third row is dropped and its fourth row (one non-empty cell) is
kept. -/
theorem dropna_filters_all_empty_rows_witness :
    [Cell.na, Cell.na] ∉ (dropAllEmpty exampleSheet).rows
    ∧ [Cell.str "3", Cell.na] ∈ (dropAllEmpty exampleSheet).rows := by
  constructor
  · exact (dropna_filters_all_empty_rows exampleSheet [Cell.na, Cell.na]).1 (by decide)
  · exact (dropna_filters_all_empty_rows exampleSheet [Cell.str "3", Cell.na]).2
      (by decide) (by decide)

/-- C8: on a non-empty well-formed frame with the key column present, the
writer stages one write per row in table order (duplicate key values
included, with no error), and after the committed batch is applied the
document under any id equals the normalized record of the last row in table
order whose derived id it is — later rows silently overwrite earlier ones;
ids written by no row keep their previous contents. -/
theorem duplicate_keys_last_row_wins (df : DataFrame)
    (hwf : df.Wellformed) (hne : df.isEmpty = false)
    (hk : KEY_COLUMN ∈ df.columns) :
    (update_firebase (some df)).1 = WriteResult.committed (stagedBatch df)
    ∧ (stagedBatch df).length = df.rows.length
    ∧ ∀ id s, getDoc (applyBatch (stagedBatch df) s) id =
        match lastRowWith df id with
        | some r => some (normRecord df r)
        | none => getDoc s id := by
  refine ⟨update_firebase_committed df hwf hne hk, by simp [stagedBatch], ?_⟩
  intro id s
  rw [getDoc_applyBatch, lastWrite_stagedBatch, lastRowWith]
  cases h : lastRowAux df id df.rows <;> simp [h]

/-- C8 witness: the theorem applied to a frame whose two rows share the key
value `"1"`; the committed document under `"1"` is the second row's record. -/
theorem duplicate_keys_last_row_wins_witness :
    (update_firebase (some dupDf)).1 = WriteResult.committed (stagedBatch dupDf)
    ∧ (stagedBatch dupDf).length = dupDf.rows.length
    ∧ getDoc (applyBatch (stagedBatch dupDf) []) "1"
        = some [("pick_id", Cell.str "1"), ("team", Cell.str "B")] := by
  have h := duplicate_keys_last_row_wins dupDf (by decide) (by decide) (by decide)
  refine ⟨h.1, h.2.1, ?_⟩
  rw [h.2.2 "1" []]
  decide

/-- C9: the store writer does not mutate its input — `fillna` produces a
fresh frame, so the caller-visible frame after `update_firebase` returns is
exactly the frame passed in, missing-value cells included. -/
theorem update_firebase_preserves_input (d : Option DataFrame) :
    (update_firebase d).2 = d := by
  cases d with
  | none => rfl
  | some df =>
    simp only [update_firebase]
    split
    · rfl
    · split
      · split <;> rfl
      · rfl

/-- C10: on a non-empty well-formed frame with the key column present,
every staged pair has a body that carries the key column as a field, and
the pair's document id is the string form of that same field's normalized
value — the key is never stripped from the body and id and body agree. -/
theorem staged_doc_id_matches_body_key (df : DataFrame)
    (hwf : df.Wellformed) (hne : df.isEmpty = false)
    (hk : KEY_COLUMN ∈ df.columns) :
    (update_firebase (some df)).1 = WriteResult.committed (stagedBatch df)
    ∧ ∀ p ∈ stagedBatch df,
        ∃ v, lookupField p.2 KEY_COLUMN = some v ∧ p.1 = v.pyStr := by
  refine ⟨update_firebase_committed df hwf hne hk, ?_⟩
  intro p hp
  obtain ⟨r, hr, rfl⟩ := List.mem_map.mp hp
  obtain ⟨v, hv⟩ := Option.isSome_iff_exists.mp (normRecord_key_isSome df r hwf hk hr)
  exact ⟨v, hv, by simp [docIdOf, hv]⟩

/-- C10 witness: the theorem applied to a concrete two-row frame, read off
at the staged pair of its second row (whose key cell is present and whose
missing team cell is normalized). -/
theorem staged_doc_id_matches_body_key_witness :
    (update_firebase (some sampleDf)).1 = WriteResult.committed (stagedBatch sampleDf)
    ∧ (∃ v, lookupField (normRecord sampleDf [Cell.str "2", Cell.na]) KEY_COLUMN = some v
        ∧ docIdOf sampleDf [Cell.str "2", Cell.na] = v.pyStr) := by
  have h := staged_doc_id_matches_body_key sampleDf (by decide) (by decide) (by decide)
  refine ⟨h.1, ?_⟩
  exact h.2 (docIdOf sampleDf [Cell.str "2", Cell.na],
    normRecord sampleDf [Cell.str "2", Cell.na]) (by decide)
